import Mathlib

/-!
Shallow embedding of the bloXroute serum-client-python core:
the transaction signer (src/bxserum/transaction/signing.py), the
WebSocket provider's request-id allocator and connection lifecycle
(src/bxserum/provider/ws.py), the HTTP provider's stream stub and
constructor (src/bxserum/provider/http.py), and the client
orchestration template (src/bxserum/provider/base.py).

Machine bytes are modelled as `List Nat`; the Ed25519 primitive of the
external solana library is a parameter (`SigScheme`) whose contract
(signatures verify against the matching public key) is an explicit
hypothesis where a claim needs it.
-/

/-- The external signature primitive (solana `Keypair.sign` / verification).
`signBytes secret msg` is the detached signature; `verify pub sig msg`
is the library-side verification check. -/
structure SigScheme where
  signBytes : Nat → List Nat → List Nat
  verify : Nat → List Nat → List Nat → Bool

/-- A solana key pair: secret component plus its public identifier. -/
structure Keypair where
  secretKey : Nat
  publicKey : Nat
deriving DecidableEq, Repr

/-- The external library's contract for a key pair: a signature produced
with the secret key verifies against the public key over the same bytes. -/
def SigScheme.Correct (S : SigScheme) (kp : Keypair) : Prop :=
  ∀ msg : List Nat, S.verify kp.publicKey (S.signBytes kp.secretKey msg) msg = true

/-- `Message.header` of a solana transaction: only the field the signer
reads, `num_required_signatures`. -/
structure MessageHeader where
  numRequiredSignatures : Nat
deriving DecidableEq, Repr

/-- One entry of `tx.signatures`: a `SigPubkeyPair` whose `signature`
field is `None` for an empty ("zero") slot. -/
structure SigPubkeyPair where
  pubkey : Nat
  signature : Option (List Nat)
deriving DecidableEq, Repr

/-- A decoded solana `Transaction` as the signer sees it: the compiled
message header, the ordered signature slots, and the rest of the message
body (kept opaque). -/
structure Transaction where
  header : MessageHeader
  signatures : List SigPubkeyPair
  messageBody : List Nat
deriving DecidableEq, Repr

/-- `tx.serialize_message()`: the byte serialization the signature covers.
The header's signature count is part of the serialized message, followed
by the opaque body bytes. -/
def Transaction.serializeMessage (tx : Transaction) : List Nat :=
  tx.header.numRequiredSignatures % 256 :: tx.messageBody

/-- The signer's failure modes, one per `raise` in signing.py, with the
spec's names: `malformedTransaction` for the slot-count mismatch
(carrying the counts from the message text), `noSignatures` for the
"transaction does not have any signatures" check, and the two zero-slot
scan failures. -/
inductive SignError where
  | malformedTransaction (required present : Nat)
  | noSignatures
  | ambiguousSignatureSlot
  | noZeroSignature
deriving DecidableEq, Repr

/-- Whether a slot is an empty ("zero") slot: `pub_keypair.signature == None`. -/
def isZeroSlot (p : SigPubkeyPair) : Bool :=
  p.signature.isNone

/-- Number of empty slots in a signature list. -/
def countZeroSlots (sigs : List SigPubkeyPair) : Nat :=
  sigs.countP isZeroSlot

/-- The scan loop of `_replace_zero_signature`: walk the slots carrying
the current index and the `zero_sig_index` accumulator (`none` models
Python's `-1`); a second empty slot raises `AmbiguousSignatureSlot`. -/
def find_zero_sig_index :
    List SigPubkeyPair → Nat → Option Nat → Except SignError (Option Nat)
  | [], _, acc => .ok acc
  | p :: rest, idx, acc =>
    if isZeroSlot p then
      match acc with
      | some _ => .error .ambiguousSignatureSlot
      | none => find_zero_sig_index rest (idx + 1) (some idx)
    else find_zero_sig_index rest (idx + 1) acc

/-- `tx.signatures[i].signature = new_signature`: update slot `i` in
place, keeping its pubkey; all other slots untouched. -/
def set_signature : List SigPubkeyPair → Nat → List Nat → List SigPubkeyPair
  | [], _, _ => []
  | p :: rest, 0, sig => { p with signature := some sig } :: rest
  | p :: rest, n + 1, sig => p :: set_signature rest n sig

/-- `_replace_zero_signature(tx, keypair)`: sign the serialized message,
require at least one slot, find the unique empty slot, write the new
signature into it. Python mutates `tx` in place, so the embedding
returns the resulting transaction next to the outcome; every error path
leaves the transaction unchanged, exactly as in the source where the
single mutation is the final statement. -/
def replace_zero_signature (S : SigScheme) (kp : Keypair) (tx : Transaction) :
    Except SignError Unit × Transaction :=
  let newSignature := S.signBytes kp.secretKey tx.serializeMessage
  if tx.signatures.isEmpty then (.error .noSignatures, tx)
  else
    match find_zero_sig_index tx.signatures 0 none with
    | .error e => (.error e, tx)
    | .ok none => (.error .noZeroSignature, tx)
    | .ok (some i) =>
      (.ok (), { tx with signatures := set_signature tx.signatures i newSignature })

/-- `_sign_tx(tx, keypair)`: compare the present slot count against
`compile_message().header.num_required_signatures`, then delegate to
`_replace_zero_signature`. -/
def sign_tx (S : SigScheme) (kp : Keypair) (tx : Transaction) :
    Except SignError Unit × Transaction :=
  let signaturesRequired := tx.header.numRequiredSignatures
  let signaturesPresent := tx.signatures.length
  if signaturesPresent ≠ signaturesRequired then
    (.error (.malformedTransaction signaturesRequired signaturesPresent), tx)
  else replace_zero_signature S kp tx

/-- `WsProvider.__init__` sets `self._request_id = 1`. -/
def ws_initial_request_id : Nat := 1

/-- `_next_request_id`: under `self._request_lock` read the counter,
increment it, return the pre-increment value (the wire identifier is
its decimal rendering). The asyncio lock makes the read-increment-return
step atomic, so it is one step of the state machine. -/
def next_request_id (c : Nat) : Nat × Nat :=
  (c, c + 1)

/-- An interleaved run of the allocator: `k` concurrent callers, a
schedule listing which caller performs the next (atomic, lock-protected)
allocation; returns the (caller, identifier) pairs in issue order and
the final counter. -/
def run_allocs {k : Nat} : Nat → List (Fin k) → List (Fin k × Nat) × Nat
  | c, [] => ([], c)
  | c, t :: rest =>
    let (id, next) := next_request_id c
    let (issued, final) := run_allocs next rest
    ((t, id) :: issued, final)

/-- The identifiers issued by a run, in issue order. -/
def issued_ids {k : Nat} (c : Nat) (sched : List (Fin k)) : List Nat :=
  (run_allocs c sched).1.map Prod.snd

/-- The one field of `aiohttp.ClientWebSocketResponse` the model needs:
whether `close()` has been awaited on it. -/
structure WsConn where
  closed : Bool
deriving DecidableEq, Repr

/-- Connection-relevant state of a `WsProvider`: `_ws` (None until
`connect()`), and the request counter. -/
structure WsState where
  ws : Option WsConn
  requestId : Nat
deriving DecidableEq, Repr

/-- Constructor state: `_ws` unset, counter at 1. -/
def ws_init : WsState :=
  { ws := none, requestId := ws_initial_request_id }

/-- `connect()`: opens the socket only if `self._ws is None` (idempotent). -/
def ws_connect (s : WsState) : WsState :=
  match s.ws with
  | none => { s with ws := some { closed := false } }
  | some _ => s

/-- `close()`: awaits `ws.close()` on the live socket but never clears
`self._ws`, which stays `some` afterwards. -/
def ws_close (s : WsState) : WsState :=
  match s.ws with
  | none => s
  | some _ => { s with ws := some { closed := true } }

/-- Observable outcome of `_unary_unary` / `_unary_stream` up to the
point the request hits the wire: either the `NotConnectedException`
guard fires (nothing sent), or a message with the allocated identifier
is written to the socket — `sentOnClosed` records whether that write
went to an already-closed socket. -/
inductive WsCallResult where
  | notConnected
  | sent (requestId : Nat) (sentOnClosed : Bool)
deriving DecidableEq, Repr

/-- `_unary_unary`: raise `NotConnectedException` iff `self._ws is None`;
otherwise allocate an identifier and send the request on the socket. -/
def ws_unary_unary (s : WsState) : WsCallResult × WsState :=
  match s.ws with
  | none => (.notConnected, s)
  | some c => (.sent s.requestId c.closed, { s with requestId := s.requestId + 1 })

/-- `_unary_stream`: identical guard and send as `_unary_unary` before
the receive loop. -/
def ws_unary_stream (s : WsState) : WsCallResult × WsState :=
  match s.ws with
  | none => (.notConnected, s)
  | some c => (.sent s.requestId c.closed, { s with requestId := s.requestId + 1 })

/-- One step of an async-generator body: yield a value to the caller,
raise an exception (terminating the generator), or perform a network
operation. -/
inductive GenStep where
  | yieldItem (v : String)
  | raiseError (e : String)
  | netOp (op : String)
deriving DecidableEq, Repr

/-- Drive a generator body for up to `n` pulls by the consumer: returns
the items delivered in order, the exception observed (if the body raised
within those pulls), and the network operations performed. A pull runs
the body forward: network steps execute and are recorded, a yield
satisfies the pull, a raise surfaces to the consumer and stops the
generator. -/
def runGen : List GenStep → Nat → List String × Option String × List String
  | _, 0 => ([], none, [])
  | [], _ + 1 => ([], none, [])
  | .netOp op :: rest, n + 1 =>
    let (items, err, ops) := runGen rest (n + 1)
    (items, err, op :: ops)
  | .yieldItem v :: rest, n + 1 =>
    let (items, err, ops) := runGen rest n
    (v :: items, err, ops)
  | .raiseError e :: _, _ + 1 => ([], some e, [])

/-- Body of `HttpProvider._unary_stream`, statement by statement: it
yields a `NotImplementedError` object as if it were a response item,
then raises `NotImplementedError`; it never touches `self._session`. -/
def http_unary_stream_steps : List GenStep :=
  [.yieldItem "NotImplementedError: streams not supported for HTTP",
   .raiseError "NotImplementedError: streams not supported for HTTP"]

/-- Client-level failure modes of a submit operation: the
`EnvironmentError("private key has not been set in provider")` raised
by `require_private_key`, or a signing failure propagating out of
`sign_tx_with_private_key`. -/
inductive ClientError where
  | missingPrivateKey
  | signFailed (e : SignError)
deriving DecidableEq, Repr

/-- A transport request issued by a submit operation, one constructor
per `post_*` route of base.py; `postSubmit` records the signed
transaction and the `skip_pre_flight` flag it carries. -/
inductive ApiCall where
  | postOrder
  | postCancelOrder
  | postCancelByClientOrderId
  | postCancelAll
  | postSettle
  | postReplaceByClientOrderId
  | postReplaceOrder
  | postSubmit (transaction : String) (skipPreFlight : Bool)
deriving DecidableEq, Repr

/-- The service and signing boundary of the orchestration template:
what each build route returns (the base64 unsigned transaction string),
what `sign_tx_with_private_key` returns for the provider's key pair,
and the confirmation signature `post_submit` returns. -/
structure ApiOracle where
  sign : Keypair → String → Except SignError String
  postOrderTx : String
  postCancelOrderTx : String
  postCancelByClientOrderIdTx : String
  postCancelAllTxs : List String
  postSettleTx : String
  postReplaceByClientOrderIdTx : String
  postReplaceOrderTx : String
  postSubmitSig : String → Bool → String

/-- `Provider.require_private_key`: raise unless a key pair is held. -/
def require_private_key (key : Option Keypair) : Except ClientError Keypair :=
  match key with
  | none => .error .missingPrivateKey
  | some kp => .ok kp

/-- Python default of `submit_order`'s `skip_pre_flight`. -/
def submit_order_default_skip_pre_flight : Bool := false

/-- Python default of `submit_cancel_order`'s `skip_pre_flight`. -/
def submit_cancel_order_default_skip_pre_flight : Bool := true

/-- Python default of `submit_cancel_by_client_order_i_d`'s `skip_pre_flight`. -/
def submit_cancel_by_client_order_i_d_default_skip_pre_flight : Bool := true

/-- Python default of `submit_cancel_all`'s `skip_pre_flight`. -/
def submit_cancel_all_default_skip_pre_flight : Bool := true

/-- Python default of `submit_settle`'s `skip_pre_flight`. -/
def submit_settle_default_skip_pre_flight : Bool := false

/-- Python default of `submit_replace_by_client_order_i_d`'s `skip_pre_flight`. -/
def submit_replace_by_client_order_i_d_default_skip_pre_flight : Bool := false

/-- Python default of `submit_replace_order`'s `skip_pre_flight`. -/
def submit_replace_order_default_skip_pre_flight : Bool := false

/-- `submit_order`: require the key, build via `post_order`, sign, submit.
Returns the outcome and the transport requests issued, in order. -/
def submit_order (key : Option Keypair) (o : ApiOracle) (skipPreFlight : Bool) :
    Except ClientError String × List ApiCall :=
  match require_private_key key with
  | .error e => (.error e, [])
  | .ok pk =>
    match o.sign pk o.postOrderTx with
    | .error e => (.error (.signFailed e), [.postOrder])
    | .ok signedTx =>
      (.ok (o.postSubmitSig signedTx skipPreFlight),
       [.postOrder, .postSubmit signedTx skipPreFlight])

/-- `submit_cancel_order`: same template over `post_cancel_order`. -/
def submit_cancel_order (key : Option Keypair) (o : ApiOracle) (skipPreFlight : Bool) :
    Except ClientError String × List ApiCall :=
  match require_private_key key with
  | .error e => (.error e, [])
  | .ok pk =>
    match o.sign pk o.postCancelOrderTx with
    | .error e => (.error (.signFailed e), [.postCancelOrder])
    | .ok signedTx =>
      (.ok (o.postSubmitSig signedTx skipPreFlight),
       [.postCancelOrder, .postSubmit signedTx skipPreFlight])

/-- `submit_cancel_by_client_order_i_d`: same template over
`post_cancel_by_client_order_i_d`. -/
def submit_cancel_by_client_order_i_d (key : Option Keypair) (o : ApiOracle)
    (skipPreFlight : Bool) : Except ClientError String × List ApiCall :=
  match require_private_key key with
  | .error e => (.error e, [])
  | .ok pk =>
    match o.sign pk o.postCancelByClientOrderIdTx with
    | .error e => (.error (.signFailed e), [.postCancelByClientOrderId])
    | .ok signedTx =>
      (.ok (o.postSubmitSig signedTx skipPreFlight),
       [.postCancelByClientOrderId, .postSubmit signedTx skipPreFlight])

/-- The `for tx in response.transactions` loop of `submit_cancel_all`:
sign each transaction, submit it at once, collect its confirmation
signature; a signing failure aborts the loop there, after the earlier
iterations' submissions have already gone out. -/
def cancel_all_loop (pk : Keypair) (o : ApiOracle) (skipPreFlight : Bool) :
    List String → Except ClientError (List String) × List ApiCall
  | [] => (.ok [], [])
  | tx :: rest =>
    match o.sign pk tx with
    | .error e => (.error (.signFailed e), [])
    | .ok signedTx =>
      let sig := o.postSubmitSig signedTx skipPreFlight
      let (r, calls) := cancel_all_loop pk o skipPreFlight rest
      (Except.map (fun sigs => sig :: sigs) r, .postSubmit signedTx skipPreFlight :: calls)

/-- `submit_cancel_all`: require the key, build via `post_cancel_all`,
then run the sign-and-submit loop over the returned transactions. -/
def submit_cancel_all (key : Option Keypair) (o : ApiOracle) (skipPreFlight : Bool) :
    Except ClientError (List String) × List ApiCall :=
  match require_private_key key with
  | .error e => (.error e, [])
  | .ok pk =>
    let (r, calls) := cancel_all_loop pk o skipPreFlight o.postCancelAllTxs
    (r, .postCancelAll :: calls)

/-- `submit_settle`: same template over `post_settle`. -/
def submit_settle (key : Option Keypair) (o : ApiOracle) (skipPreFlight : Bool) :
    Except ClientError String × List ApiCall :=
  match require_private_key key with
  | .error e => (.error e, [])
  | .ok pk =>
    match o.sign pk o.postSettleTx with
    | .error e => (.error (.signFailed e), [.postSettle])
    | .ok signedTx =>
      (.ok (o.postSubmitSig signedTx skipPreFlight),
       [.postSettle, .postSubmit signedTx skipPreFlight])

/-- `submit_replace_by_client_order_i_d`: same template over
`post_replace_by_client_order_i_d`. -/
def submit_replace_by_client_order_i_d (key : Option Keypair) (o : ApiOracle)
    (skipPreFlight : Bool) : Except ClientError String × List ApiCall :=
  match require_private_key key with
  | .error e => (.error e, [])
  | .ok pk =>
    match o.sign pk o.postReplaceByClientOrderIdTx with
    | .error e => (.error (.signFailed e), [.postReplaceByClientOrderId])
    | .ok signedTx =>
      (.ok (o.postSubmitSig signedTx skipPreFlight),
       [.postReplaceByClientOrderId, .postSubmit signedTx skipPreFlight])

/-- `submit_replace_order`: same template over `post_replace_order`. -/
def submit_replace_order (key : Option Keypair) (o : ApiOracle) (skipPreFlight : Bool) :
    Except ClientError String × List ApiCall :=
  match require_private_key key with
  | .error e => (.error e, [])
  | .ok pk =>
    match o.sign pk o.postReplaceOrderTx with
    | .error e => (.error (.signFailed e), [.postReplaceOrder])
    | .ok signedTx =>
      (.ok (o.postSubmitSig signedTx skipPreFlight),
       [.postReplaceOrder, .postSubmit signedTx skipPreFlight])

/-- The base-58 alphabet of the `base58` library (Bitcoin alphabet). -/
def base58Alphabet : List Char :=
  "123456789ABCDEFGHJKLMNPQRSTUVWXYZabcdefghijkmnopqrstuvwxyz".toList

/-- Digit value of one base-58 character, `none` for a character outside
the alphabet (the library raises `ValueError` there). -/
def b58DigitValue (c : Char) : Option Nat :=
  base58Alphabet.indexOf? c

/-- `base58.b58decode` up to the byte packing: `none` exactly when the
string holds a character outside the alphabet, otherwise the decoded
numeric value. -/
def b58decode (s : String) : Option Nat :=
  s.toList.foldl
    (fun acc c => acc.bind fun a => (b58DigitValue c).map fun d => a * 58 + d)
    (some 0)

/-- Failure modes of key loading: the `EnvironmentError` for an unset
`PRIVATE_KEY` variable, and the `ValueError` out of `base58.b58decode`
for a malformed key string. -/
inductive LoadKeyError where
  | envNotSet
  | invalidBase58
deriving DecidableEq, Repr

/-- `Keypair.from_secret_key`: external library boundary; derives the
key pair from the decoded secret bytes. The derivation of the public
component is opaque to this client and modelled as the identity. -/
def keypair_from_secret_key (n : Nat) : Keypair :=
  { secretKey := n, publicKey := n }

/-- `load_private_key(private_key)`: base-58-decode the explicit key
string and build the key pair; a malformed string raises out
(`ValueError`, modelled as `invalidBase58`). -/
def load_private_key (pkeyStr : String) : Except LoadKeyError Keypair :=
  match b58decode pkeyStr with
  | none => .error .invalidBase58
  | some n => .ok (keypair_from_secret_key n)

/-- `load_private_key_from_env()` (signing.py `load_private_key`): read
`PRIVATE_KEY` (here: the variable's value, or `none` when unset); raise
`EnvironmentError` when unset, else decode like `load_private_key`. -/
def load_private_key_from_env (env : Option String) : Except LoadKeyError Keypair :=
  match env with
  | none => .error .envNotSet
  | some s => load_private_key s

/-- The key-resolution step shared verbatim by `HttpProvider.__init__`
and `WsProvider.__init__`: with no explicit key, try the environment and
catch only `EnvironmentError` (unset variable), leaving the provider
keyless; any other loading error escapes the constructor. With an
explicit key, decode it, letting errors escape. -/
def provider_init_key (explicit : Option String) (env : Option String) :
    Except LoadKeyError (Option Keypair) :=
  match explicit with
  | none =>
    match load_private_key_from_env env with
    | .error .envNotSet => .ok none
    | .error e => .error e
    | .ok kp => .ok (some kp)
  | some s =>
    match load_private_key s with
    | .error e => .error e
    | .ok kp => .ok (some kp)


/-- `countZeroSlots` on the empty list. -/
theorem countZeroSlots_nil : countZeroSlots [] = 0 := by
  rw [countZeroSlots, List.countP_nil]

/-- `countZeroSlots` steps over an empty head slot. -/
theorem countZeroSlots_cons_zero {p : SigPubkeyPair} {rest : List SigPubkeyPair}
    (hz : isZeroSlot p = true) :
    countZeroSlots (p :: rest) = countZeroSlots rest + 1 := by
  rw [countZeroSlots, countZeroSlots, List.countP_cons, hz]
  simp

/-- `countZeroSlots` steps over a populated head slot. -/
theorem countZeroSlots_cons_nonzero {p : SigPubkeyPair} {rest : List SigPubkeyPair}
    (hz : isZeroSlot p = false) :
    countZeroSlots (p :: rest) = countZeroSlots rest := by
  rw [countZeroSlots, countZeroSlots, List.countP_cons, hz]
  simp

/-- A slot list without empty slots leaves the scan accumulator untouched. -/
theorem find_zero_sig_index_of_no_zero (l : List SigPubkeyPair) :
    countZeroSlots l = 0 →
    ∀ (k : Nat) (acc : Option Nat), find_zero_sig_index l k acc = .ok acc := by
  induction l with
  | nil => intro _ k acc; rfl
  | cons p rest ih =>
    intro h k acc
    have hp : isZeroSlot p = false := by
      cases hz : isZeroSlot p
      · rfl
      · rw [countZeroSlots_cons_zero hz] at h; omega
    rw [countZeroSlots_cons_nonzero hp] at h
    simp only [find_zero_sig_index, hp, Bool.false_eq_true, if_false]
    exact ih h (k + 1) acc

/-- Once the accumulator holds an index, any further empty slot makes the
scan raise `AmbiguousSignatureSlot`. -/
theorem find_zero_sig_index_of_acc_some (l : List SigPubkeyPair) :
    1 ≤ countZeroSlots l →
    ∀ (k i : Nat), find_zero_sig_index l k (some i) = .error .ambiguousSignatureSlot := by
  induction l with
  | nil => intro h; rw [countZeroSlots_nil] at h; omega
  | cons p rest ih =>
    intro h k i
    cases hz : isZeroSlot p
    · rw [countZeroSlots_cons_nonzero hz] at h
      simp only [find_zero_sig_index, hz, Bool.false_eq_true, if_false]
      exact ih h (k + 1) i
    · simp [find_zero_sig_index, hz]

/-- Two or more empty slots make the scan raise `AmbiguousSignatureSlot`. -/
theorem find_zero_sig_index_of_two_zero (l : List SigPubkeyPair) :
    2 ≤ countZeroSlots l →
    ∀ (k : Nat), find_zero_sig_index l k none = .error .ambiguousSignatureSlot := by
  induction l with
  | nil => intro h; rw [countZeroSlots_nil] at h; omega
  | cons p rest ih =>
    intro h k
    cases hz : isZeroSlot p
    · rw [countZeroSlots_cons_nonzero hz] at h
      simp only [find_zero_sig_index, hz, Bool.false_eq_true, if_false]
      exact ih h (k + 1)
    · rw [countZeroSlots_cons_zero hz] at h
      have h1 : 1 ≤ countZeroSlots rest := by omega
      simp only [find_zero_sig_index, hz, if_true]
      exact find_zero_sig_index_of_acc_some rest h1 (k + 1) k

/-- With exactly one empty slot, the scan finds its index. -/
theorem find_zero_sig_index_unique (pre : List SigPubkeyPair) :
    countZeroSlots pre = 0 →
    ∀ (z : SigPubkeyPair), isZeroSlot z = true →
    ∀ (post : List SigPubkeyPair), countZeroSlots post = 0 →
    ∀ (k : Nat),
      find_zero_sig_index (pre ++ z :: post) k none = .ok (some (k + pre.length)) := by
  induction pre with
  | nil =>
    intro _ z hz post hpost k
    simp only [List.nil_append, find_zero_sig_index, hz, if_true, List.length_nil,
      Nat.add_zero]
    exact find_zero_sig_index_of_no_zero post hpost (k + 1) (some k)
  | cons p pre' ih =>
    intro h z hz post hpost k
    have hp : isZeroSlot p = false := by
      cases hzp : isZeroSlot p
      · rfl
      · rw [countZeroSlots_cons_zero hzp] at h; omega
    rw [countZeroSlots_cons_nonzero hp] at h
    simp only [List.cons_append, find_zero_sig_index, hp, Bool.false_eq_true, if_false,
      List.append_eq]
    rw [ih h z hz post hpost (k + 1)]
    simp only [List.length_cons]
    congr 2
    omega

/-- A list with exactly one empty slot splits around that slot, with no
empty slot on either side. -/
theorem countZeroSlots_eq_one_decomp (l : List SigPubkeyPair) :
    countZeroSlots l = 1 →
    ∃ pre z post, l = pre ++ z :: post ∧ isZeroSlot z = true ∧
      countZeroSlots pre = 0 ∧ countZeroSlots post = 0 := by
  induction l with
  | nil => intro h; rw [countZeroSlots_nil] at h; omega
  | cons p rest ih =>
    intro h
    cases hz : isZeroSlot p
    · rw [countZeroSlots_cons_nonzero hz] at h
      obtain ⟨pre, z, post, hl, hz2, hpre, hpost⟩ := ih h
      refine ⟨p :: pre, z, post, by rw [hl, List.cons_append], hz2, ?_, hpost⟩
      rw [countZeroSlots_cons_nonzero hz]
      exact hpre
    · rw [countZeroSlots_cons_zero hz] at h
      have h1 : countZeroSlots rest = 0 := by omega
      exact ⟨[], p, rest, rfl, hz, countZeroSlots_nil, h1⟩

/-- Writing the signature at the split index fills exactly the split slot. -/
theorem set_signature_at_append (pre : List SigPubkeyPair) (z : SigPubkeyPair)
    (post : List SigPubkeyPair) (sig : List Nat) :
    set_signature (pre ++ z :: post) pre.length sig =
      pre ++ { z with signature := some sig } :: post := by
  induction pre with
  | nil => rfl
  | cons p pre' ih =>
    simp only [List.cons_append, List.length_cons, set_signature, List.append_eq, ih]

/-- A slot after the signer wrote a signature into it: same pubkey,
signature populated. -/
def filledSlot (z : SigPubkeyPair) (sig : List Nat) : SigPubkeyPair :=
  { z with signature := some sig }

/-- A concrete signature scheme for evaluating the theorems: signing
prepends the secret key to the message, verification checks for the
matching public-key prefix. -/
def sampleScheme : SigScheme :=
  { signBytes := fun sk msg => sk :: msg
    verify := fun pk sig msg => sig == pk :: msg }

/-- A concrete key pair for the sample scheme. -/
def sampleKeypair : Keypair := { secretKey := 7, publicKey := 7 }

/-- The sample scheme satisfies the library contract for the sample pair. -/
theorem sampleScheme_correct : sampleScheme.Correct sampleKeypair := by
  intro msg
  simp [sampleScheme, sampleKeypair, SigScheme.Correct]

/-- A valid unsigned transaction: two slots as the header requires, the
second one empty. -/
def sampleUnsignedTx : Transaction :=
  { header := { numRequiredSignatures := 2 }
    signatures := [{ pubkey := 5, signature := some [9] }, { pubkey := 6, signature := none }]
    messageBody := [1, 2, 3] }

/-- C1: on a transaction whose slot count matches the header's required
count and which has exactly one empty slot, `sign` succeeds, writes into
exactly that slot a signature over the serialized message bytes that
verifies against the signing key's public key, and every other slot of
the result is byte-identical to the corresponding input slot. -/
theorem sign_tx_fills_unique_zero_slot (S : SigScheme) (kp : Keypair) (tx : Transaction)
    (hS : S.Correct kp)
    (hcount : tx.signatures.length = tx.header.numRequiredSignatures)
    (hone : countZeroSlots tx.signatures = 1) :
    ∃ pre z post,
      tx.signatures = pre ++ z :: post ∧
      z.signature = none ∧
      countZeroSlots pre = 0 ∧ countZeroSlots post = 0 ∧
      sign_tx S kp tx =
        (.ok (),
         { tx with signatures :=
             pre ++ filledSlot z (S.signBytes kp.secretKey tx.serializeMessage) :: post }) ∧
      S.verify kp.publicKey (S.signBytes kp.secretKey tx.serializeMessage)
        tx.serializeMessage = true := by
  obtain ⟨pre, z, post, hl, hz, hpre, hpost⟩ := countZeroSlots_eq_one_decomp _ hone
  have hzn : z.signature = none := Option.isNone_iff_eq_none.mp hz
  have hc : ¬ tx.signatures.length ≠ tx.header.numRequiredSignatures := fun h => h hcount
  have hemp : tx.signatures.isEmpty = false := by
    rw [List.isEmpty_eq_false, hl]
    cases pre <;> simp
  have hfind := find_zero_sig_index_unique pre hpre z hz post hpost 0
  simp only [Nat.zero_add] at hfind
  refine ⟨pre, z, post, hl, hzn, hpre, hpost, ?_, hS _⟩
  simp only [sign_tx, if_neg hc, replace_zero_signature, hemp, Bool.false_eq_true, if_false]
  rw [hl, hfind]
  simp only [set_signature_at_append, filledSlot]

/-- The signature the sample key produces over the sample transaction's
serialized message. -/
def sampleNewSig : List Nat :=
  sampleScheme.signBytes sampleKeypair.secretKey sampleUnsignedTx.serializeMessage

/-- Witness for C1 at the sample transaction and key. -/
theorem sign_tx_fills_unique_zero_slot_witness :
    ∃ pre z post,
      sampleUnsignedTx.signatures = pre ++ z :: post ∧
      z.signature = none ∧
      countZeroSlots pre = 0 ∧ countZeroSlots post = 0 ∧
      sign_tx sampleScheme sampleKeypair sampleUnsignedTx =
        (.ok (),
         { sampleUnsignedTx with signatures := pre ++ filledSlot z sampleNewSig :: post }) ∧
      sampleScheme.verify sampleKeypair.publicKey sampleNewSig
        sampleUnsignedTx.serializeMessage = true :=
  sign_tx_fills_unique_zero_slot sampleScheme sampleKeypair sampleUnsignedTx
    sampleScheme_correct (by decide) (by decide)

/-- C2: when the number of slots differs from the header's required
count, `sign` fails with the MalformedTransaction error carrying both
counts, and the transaction comes back unchanged: no slot was mutated
before the failure. -/
theorem sign_tx_malformed_on_count_mismatch (S : SigScheme) (kp : Keypair) (tx : Transaction)
    (h : tx.signatures.length ≠ tx.header.numRequiredSignatures) :
    sign_tx S kp tx =
      (.error (.malformedTransaction tx.header.numRequiredSignatures tx.signatures.length),
       tx) := by
  simp only [sign_tx, if_pos h]

/-- A transaction with two slots but a header requiring one signature. -/
def sampleMismatchTx : Transaction :=
  { header := { numRequiredSignatures := 1 }
    signatures := [{ pubkey := 5, signature := none }, { pubkey := 6, signature := some [9] }]
    messageBody := [1, 2, 3] }

/-- Witness for C2 at the mismatched sample transaction. -/
theorem sign_tx_malformed_on_count_mismatch_witness :
    sign_tx sampleScheme sampleKeypair sampleMismatchTx =
      (.error (.malformedTransaction 1 2), sampleMismatchTx) :=
  sign_tx_malformed_on_count_mismatch sampleScheme sampleKeypair sampleMismatchTx (by decide)

/-- A transaction with no slots at all whose header also requires zero
signatures: it passes the slot-count check with zero empty slots. -/
def emptySlotlessTx : Transaction :=
  { header := { numRequiredSignatures := 0 }, signatures := [], messageBody := [4, 5] }

/-- C3 counterexample: a transaction that passes the slot-count check
(zero slots, zero required) has zero empty slots, yet `sign` fails with
the "transaction does not have any signatures" MalformedTransaction
error, not with NoSignatureSlot as the claim states. -/
theorem sign_tx_zero_slots_counterexample :
    emptySlotlessTx.signatures.length = emptySlotlessTx.header.numRequiredSignatures ∧
    countZeroSlots emptySlotlessTx.signatures = 0 ∧
    sign_tx sampleScheme sampleKeypair emptySlotlessTx =
      (.error .noSignatures, emptySlotlessTx) ∧
    sign_tx sampleScheme sampleKeypair emptySlotlessTx ≠
      (.error .noZeroSignature, emptySlotlessTx) := by
  refine ⟨rfl, rfl, rfl, ?_⟩
  have eq1 : sign_tx sampleScheme sampleKeypair emptySlotlessTx =
      (.error .noSignatures, emptySlotlessTx) := rfl
  rw [eq1]
  simp

/-- C3 amended: for transactions that pass the slot-count check and have
at least one slot, zero empty slots fails with NoSignatureSlot and two
or more empty slots fails with AmbiguousSignatureSlot, the transaction
unchanged in both cases; with no slots at all the failure is instead the
"no signatures" MalformedTransaction error. -/
theorem sign_tx_zero_or_many_empty_slots (S : SigScheme) (kp : Keypair) (tx : Transaction)
    (hcount : tx.signatures.length = tx.header.numRequiredSignatures)
    (hne : tx.signatures ≠ []) :
    (countZeroSlots tx.signatures = 0 →
      sign_tx S kp tx = (.error .noZeroSignature, tx)) ∧
    (2 ≤ countZeroSlots tx.signatures →
      sign_tx S kp tx = (.error .ambiguousSignatureSlot, tx)) := by
  have hc : ¬ tx.signatures.length ≠ tx.header.numRequiredSignatures := fun h => h hcount
  have hemp : tx.signatures.isEmpty = false := by
    rw [List.isEmpty_eq_false]; exact hne
  constructor
  · intro h0
    simp only [sign_tx, if_neg hc, replace_zero_signature, hemp, Bool.false_eq_true, if_false,
      find_zero_sig_index_of_no_zero tx.signatures h0 0 none]
  · intro h2
    simp only [sign_tx, if_neg hc, replace_zero_signature, hemp, Bool.false_eq_true, if_false,
      find_zero_sig_index_of_two_zero tx.signatures h2 0]

/-- A fully signed transaction: two required, both slots populated. -/
def sampleFullTx : Transaction :=
  { header := { numRequiredSignatures := 2 }
    signatures := [{ pubkey := 5, signature := some [1] }, { pubkey := 6, signature := some [9] }]
    messageBody := [1] }

/-- A transaction with two empty slots out of two required. -/
def sampleTwoZeroTx : Transaction :=
  { header := { numRequiredSignatures := 2 }
    signatures := [{ pubkey := 5, signature := none }, { pubkey := 6, signature := none }]
    messageBody := [1] }

/-- Witness for the amended C3 at a fully signed and at a doubly empty
transaction. -/
theorem sign_tx_zero_or_many_empty_slots_witness :
    sign_tx sampleScheme sampleKeypair sampleFullTx =
      (.error .noZeroSignature, sampleFullTx) ∧
    sign_tx sampleScheme sampleKeypair sampleTwoZeroTx =
      (.error .ambiguousSignatureSlot, sampleTwoZeroTx) :=
  ⟨(sign_tx_zero_or_many_empty_slots sampleScheme sampleKeypair sampleFullTx
      (by decide) (by decide)).1 (by decide),
   (sign_tx_zero_or_many_empty_slots sampleScheme sampleKeypair sampleTwoZeroTx
      (by decide) (by decide)).2 (by decide)⟩

/-- A run of `n` allocations from counter `c` issues exactly
`c, c+1, ..., c+n-1` in order and leaves the counter at `c + n`. -/
theorem run_allocs_ids (k : Nat) :
    ∀ (sched : List (Fin k)) (c : Nat),
      issued_ids c sched = List.range' c sched.length ∧
      (run_allocs c sched).2 = c + sched.length := by
  intro sched
  induction sched with
  | nil => intro c; exact ⟨rfl, rfl⟩
  | cons t rest ih =>
    intro c
    obtain ⟨h1, h2⟩ := ih (c + 1)
    constructor
    · rw [List.length_cons, List.range'_succ]
      rw [issued_ids] at h1 ⊢
      simp only [run_allocs, next_request_id, List.map_cons]
      rw [h1]
    · simp only [run_allocs, next_request_id, List.length_cons]
      rw [h2]
      omega

/-- C4: for any number of concurrent callers and any interleaving
schedule, the request identifiers issued by the WebSocket transport's
allocator are `1, 2, ..., N` in issue order: pairwise distinct, strictly
increasing, starting at 1; the counter only ever increases, ending at
`1 + N`, and each allocation returned the pre-increment counter value. -/
theorem ws_request_ids_unique_increasing (k : Nat) (sched : List (Fin k)) :
    issued_ids ws_initial_request_id sched = List.range' 1 sched.length ∧
    (issued_ids ws_initial_request_id sched).Pairwise (· < ·) ∧
    (issued_ids ws_initial_request_id sched).Nodup ∧
    (run_allocs ws_initial_request_id sched).2 = 1 + sched.length := by
  obtain ⟨h1, h2⟩ := run_allocs_ids k sched ws_initial_request_id
  refine ⟨h1, ?_, ?_, h2⟩
  · rw [h1]; exact List.pairwise_lt_range' 1 sched.length
  · rw [h1]; exact List.nodup_range' 1 sched.length

/-- C6 counterexample: the first pull on the HTTP provider's
`_unary_stream` generator delivers an item (the yielded
NotImplementedError object) and observes no failure yet, so the call
does not fail before delivering a response item to the caller. -/
theorem http_unary_stream_counterexample :
    runGen http_unary_stream_steps 1 =
      (["NotImplementedError: streams not supported for HTTP"], none, []) ∧
    (runGen http_unary_stream_steps 1).1 ≠ [] ∧
    (runGen http_unary_stream_steps 1).2.1 = none := by
  refine ⟨rfl, ?_, rfl⟩
  have h1 : (runGen http_unary_stream_steps 1).1 =
      ["NotImplementedError: streams not supported for HTTP"] := rfl
  rw [h1]
  simp

/-- C6 amended: `call_stream` on the HTTP provider performs no network
operation under any number of pulls and raises its
NotImplementedError("streams not supported for HTTP"), but only on the
second pull — the first pull yields the error object as an item instead
of failing before any item is delivered. -/
theorem http_unary_stream_no_network (n : Nat) :
    (runGen http_unary_stream_steps n).2.2 = [] ∧
    runGen http_unary_stream_steps 2 =
      (["NotImplementedError: streams not supported for HTTP"],
       some "NotImplementedError: streams not supported for HTTP", []) := by
  refine ⟨?_, rfl⟩
  match n with
  | 0 => rfl
  | 1 => rfl
  | n + 2 => rfl

/-- C7 counterexample: after `connect()` then `close()`, the `_ws`
handle is still set, so a call does not fail with NotConnected — it
goes on to send the request on the already-closed connection. -/
theorem ws_call_after_close_counterexample :
    (ws_unary_unary (ws_close (ws_connect ws_init))).1 = .sent 1 true ∧
    (ws_unary_unary (ws_close (ws_connect ws_init))).1 ≠ .notConnected ∧
    (ws_unary_stream (ws_close (ws_connect ws_init))).1 ≠ .notConnected := by
  refine ⟨rfl, ?_, ?_⟩ <;> intro h <;> simp [ws_unary_unary, ws_unary_stream,
    ws_close, ws_connect, ws_init] at h

/-- C7 amended: while `_ws` is unset — connect() never called — both
`call_single` and `call_stream` fail with NotConnected, leaving the
state untouched and sending nothing; after close(), however, the handle
remains set and the call sends on the closed connection instead of
failing with NotConnected. -/
theorem ws_not_connected_guard (s : WsState) (h : s.ws = none) :
    ws_unary_unary s = (.notConnected, s) ∧
    ws_unary_stream s = (.notConnected, s) ∧
    (ws_unary_unary (ws_close (ws_connect ws_init))).1 =
      .sent ws_initial_request_id true := by
  refine ⟨?_, ?_, rfl⟩ <;> simp [ws_unary_unary, ws_unary_stream, h]

/-- Witness for the amended C7 at the freshly constructed provider. -/
theorem ws_not_connected_guard_witness :
    ws_unary_unary ws_init = (.notConnected, ws_init) ∧
    ws_unary_stream ws_init = (.notConnected, ws_init) ∧
    (ws_unary_unary (ws_close (ws_connect ws_init))).1 =
      .sent ws_initial_request_id true :=
  ws_not_connected_guard ws_init rfl

/-- A concrete service boundary for the orchestration theorems: the
cancel-all build step returns three transactions, signing prefixes
"signed-" but rejects "t2", submission returns a "sig-" confirmation. -/
def sampleOracle : ApiOracle :=
  { sign := fun _ t => if t = "t2" then .error .noZeroSignature else .ok ("signed-" ++ t)
    postOrderTx := "order-tx"
    postCancelOrderTx := "cancel-tx"
    postCancelByClientOrderIdTx := "cancelbyid-tx"
    postCancelAllTxs := ["t1", "t2", "t3"]
    postSettleTx := "settle-tx"
    postReplaceByClientOrderIdTx := "replacebyid-tx"
    postReplaceOrderTx := "replace-tx"
    postSubmitSig := fun stx _ => "sig-" ++ stx }

/-- A service boundary on which every signing succeeds and the cancel-all
build step returns one transaction. -/
def sampleOkOracle : ApiOracle :=
  { sign := fun _ t => .ok ("signed-" ++ t)
    postOrderTx := "order-tx"
    postCancelOrderTx := "cancel-tx"
    postCancelByClientOrderIdTx := "cancelbyid-tx"
    postCancelAllTxs := ["ca-tx"]
    postSettleTx := "settle-tx"
    postReplaceByClientOrderIdTx := "replacebyid-tx"
    postReplaceOrderTx := "replace-tx"
    postSubmitSig := fun stx _ => "sig-" ++ stx }

/-- C5 counterexample: cancel-all over three built transactions where
signing the second fails — the operation reports failure, yet the first
transaction's signed submission has already been sent (it appears in
the issued transport requests), contradicting the claim that it has
not been sent. -/
theorem submit_cancel_all_counterexample :
    (submit_cancel_all (some sampleKeypair) sampleOracle true).1 =
      .error (.signFailed .noZeroSignature) ∧
    (submit_cancel_all (some sampleKeypair) sampleOracle true).2 =
      [.postCancelAll, .postSubmit ("signed-" ++ "t1") true] ∧
    ApiCall.postSubmit ("signed-" ++ "t1") true ∈
      (submit_cancel_all (some sampleKeypair) sampleOracle true).2 := by
  refine ⟨rfl, rfl, ?_⟩
  have h2 : (submit_cancel_all (some sampleKeypair) sampleOracle true).2 =
      [.postCancelAll, .postSubmit ("signed-" ++ "t1") true] := rfl
  rw [h2]
  simp

/-- A signing failure at any position of the cancel-all loop aborts it
with that failure, after having submitted exactly the signed forms of
the earlier list elements. -/
theorem cancel_all_loop_abort (pk : Keypair) (o : ApiOracle) (skip : Bool)
    (pre signedPre : List String) (tx : String) (post : List String) (e : SignError)
    (hpre : List.Forall₂ (fun t stx => o.sign pk t = .ok stx) pre signedPre)
    (htx : o.sign pk tx = .error e) :
    cancel_all_loop pk o skip (pre ++ tx :: post) =
      (.error (.signFailed e),
       signedPre.map (fun stx => ApiCall.postSubmit stx skip)) := by
  induction hpre with
  | nil => simp only [List.nil_append, cancel_all_loop, htx, List.map_nil]
  | cons h hrest ih =>
    simp only [List.cons_append, cancel_all_loop, h, List.append_eq, ih, List.map_cons,
      Except.map]

/-- C5 amended: when the cancel-all build step returns transactions of
which one fails to sign, the whole operation reports that failure — no
signature sequence is returned as success — but the submissions of the
transactions before the failing one have already been sent; for a
failure on the second of three transactions, the first transaction's
signed submission has been sent. -/
theorem submit_cancel_all_aborts_keeps_no_success (kp : Keypair) (o : ApiOracle)
    (skip : Bool) (pre signedPre : List String) (tx : String) (post : List String)
    (e : SignError)
    (hall : o.postCancelAllTxs = pre ++ tx :: post)
    (hpre : List.Forall₂ (fun t stx => o.sign kp t = .ok stx) pre signedPre)
    (htx : o.sign kp tx = .error e) :
    (submit_cancel_all (some kp) o skip).1 = .error (.signFailed e) ∧
    (submit_cancel_all (some kp) o skip).2 =
      .postCancelAll :: signedPre.map (fun stx => ApiCall.postSubmit stx skip) := by
  have hloop := cancel_all_loop_abort kp o skip pre signedPre tx post e hpre htx
  constructor <;>
    simp only [submit_cancel_all, require_private_key, hall, hloop]

/-- Witness for the amended C5 at the concrete three-transaction oracle. -/
theorem submit_cancel_all_aborts_keeps_no_success_witness :
    (submit_cancel_all (some sampleKeypair) sampleOracle true).1 =
      .error (.signFailed .noZeroSignature) ∧
    (submit_cancel_all (some sampleKeypair) sampleOracle true).2 =
      .postCancelAll ::
        (["signed-" ++ "t1"].map (fun stx => ApiCall.postSubmit stx true)) :=
  submit_cancel_all_aborts_keeps_no_success sampleKeypair sampleOracle true
    ["t1"] ["signed-" ++ "t1"] "t2" ["t3"] .noZeroSignature rfl
    (List.Forall₂.cons rfl List.Forall₂.nil) rfl

/-- C8: every mutating submit operation invoked on a client holding no
key pair fails with MissingPrivateKey and issues no transport request. -/
theorem submit_ops_require_private_key (o : ApiOracle) (skip : Bool) :
    submit_order none o skip = (.error .missingPrivateKey, []) ∧
    submit_cancel_order none o skip = (.error .missingPrivateKey, []) ∧
    submit_cancel_by_client_order_i_d none o skip = (.error .missingPrivateKey, []) ∧
    submit_cancel_all none o skip = (.error .missingPrivateKey, []) ∧
    submit_settle none o skip = (.error .missingPrivateKey, []) ∧
    submit_replace_by_client_order_i_d none o skip = (.error .missingPrivateKey, []) ∧
    submit_replace_order none o skip = (.error .missingPrivateKey, []) :=
  ⟨rfl, rfl, rfl, rfl, rfl, rfl, rfl⟩

/-- C9: the skip_pre_flight values used when the caller passes none are
false (preflight enabled) for order placement, settlement and both
replacements, and true (preflight disabled) for the three cancellations;
each operation invoked with its default carries exactly that flag on
the submit request it issues. -/
theorem submit_default_skip_pre_flight (kp : Keypair) (o : ApiOracle)
    (so sc sci sca ss srb sro catx : String)
    (h1 : o.sign kp o.postOrderTx = .ok so)
    (h2 : o.sign kp o.postCancelOrderTx = .ok sc)
    (h3 : o.sign kp o.postCancelByClientOrderIdTx = .ok sci)
    (h4 : o.postCancelAllTxs = [catx])
    (h5 : o.sign kp catx = .ok sca)
    (h6 : o.sign kp o.postSettleTx = .ok ss)
    (h7 : o.sign kp o.postReplaceByClientOrderIdTx = .ok srb)
    (h8 : o.sign kp o.postReplaceOrderTx = .ok sro) :
    submit_order_default_skip_pre_flight = false ∧
    submit_cancel_order_default_skip_pre_flight = true ∧
    submit_cancel_by_client_order_i_d_default_skip_pre_flight = true ∧
    submit_cancel_all_default_skip_pre_flight = true ∧
    submit_settle_default_skip_pre_flight = false ∧
    submit_replace_by_client_order_i_d_default_skip_pre_flight = false ∧
    submit_replace_order_default_skip_pre_flight = false ∧
    (submit_order (some kp) o submit_order_default_skip_pre_flight).2 =
      [.postOrder, .postSubmit so false] ∧
    (submit_cancel_order (some kp) o submit_cancel_order_default_skip_pre_flight).2 =
      [.postCancelOrder, .postSubmit sc true] ∧
    (submit_cancel_by_client_order_i_d (some kp) o
      submit_cancel_by_client_order_i_d_default_skip_pre_flight).2 =
      [.postCancelByClientOrderId, .postSubmit sci true] ∧
    (submit_cancel_all (some kp) o submit_cancel_all_default_skip_pre_flight).2 =
      [.postCancelAll, .postSubmit sca true] ∧
    (submit_settle (some kp) o submit_settle_default_skip_pre_flight).2 =
      [.postSettle, .postSubmit ss false] ∧
    (submit_replace_by_client_order_i_d (some kp) o
      submit_replace_by_client_order_i_d_default_skip_pre_flight).2 =
      [.postReplaceByClientOrderId, .postSubmit srb false] ∧
    (submit_replace_order (some kp) o submit_replace_order_default_skip_pre_flight).2 =
      [.postReplaceOrder, .postSubmit sro false] := by
  refine ⟨rfl, rfl, rfl, rfl, rfl, rfl, rfl, ?_, ?_, ?_, ?_, ?_, ?_, ?_⟩ <;>
    simp [submit_order, submit_cancel_order, submit_cancel_by_client_order_i_d,
      submit_cancel_all, cancel_all_loop, submit_settle,
      submit_replace_by_client_order_i_d, submit_replace_order, require_private_key,
      h1, h2, h3, h4, h5, h6, h7, h8,
      submit_order_default_skip_pre_flight, submit_cancel_order_default_skip_pre_flight,
      submit_cancel_by_client_order_i_d_default_skip_pre_flight,
      submit_cancel_all_default_skip_pre_flight, submit_settle_default_skip_pre_flight,
      submit_replace_by_client_order_i_d_default_skip_pre_flight,
      submit_replace_order_default_skip_pre_flight]

/-- Witness for C9 at the all-succeeding oracle. -/
theorem submit_default_skip_pre_flight_witness :
    submit_order_default_skip_pre_flight = false ∧
    submit_cancel_order_default_skip_pre_flight = true ∧
    submit_cancel_by_client_order_i_d_default_skip_pre_flight = true ∧
    submit_cancel_all_default_skip_pre_flight = true ∧
    submit_settle_default_skip_pre_flight = false ∧
    submit_replace_by_client_order_i_d_default_skip_pre_flight = false ∧
    submit_replace_order_default_skip_pre_flight = false ∧
    (submit_order (some sampleKeypair) sampleOkOracle
      submit_order_default_skip_pre_flight).2 =
      [.postOrder, .postSubmit ("signed-" ++ "order-tx") false] ∧
    (submit_cancel_order (some sampleKeypair) sampleOkOracle
      submit_cancel_order_default_skip_pre_flight).2 =
      [.postCancelOrder, .postSubmit ("signed-" ++ "cancel-tx") true] ∧
    (submit_cancel_by_client_order_i_d (some sampleKeypair) sampleOkOracle
      submit_cancel_by_client_order_i_d_default_skip_pre_flight).2 =
      [.postCancelByClientOrderId, .postSubmit ("signed-" ++ "cancelbyid-tx") true] ∧
    (submit_cancel_all (some sampleKeypair) sampleOkOracle
      submit_cancel_all_default_skip_pre_flight).2 =
      [.postCancelAll, .postSubmit ("signed-" ++ "ca-tx") true] ∧
    (submit_settle (some sampleKeypair) sampleOkOracle
      submit_settle_default_skip_pre_flight).2 =
      [.postSettle, .postSubmit ("signed-" ++ "settle-tx") false] ∧
    (submit_replace_by_client_order_i_d (some sampleKeypair) sampleOkOracle
      submit_replace_by_client_order_i_d_default_skip_pre_flight).2 =
      [.postReplaceByClientOrderId, .postSubmit ("signed-" ++ "replacebyid-tx") false] ∧
    (submit_replace_order (some sampleKeypair) sampleOkOracle
      submit_replace_order_default_skip_pre_flight).2 =
      [.postReplaceOrder, .postSubmit ("signed-" ++ "replace-tx") false] :=
  submit_default_skip_pre_flight sampleKeypair sampleOkOracle
    ("signed-" ++ "order-tx") ("signed-" ++ "cancel-tx") ("signed-" ++ "cancelbyid-tx")
    ("signed-" ++ "ca-tx") ("signed-" ++ "settle-tx") ("signed-" ++ "replacebyid-tx")
    ("signed-" ++ "replace-tx") "ca-tx" rfl rfl rfl rfl rfl rfl rfl rfl

/-- C10: a provider constructed with no explicit key and an unset
PRIVATE_KEY variable catches only the unset-variable error and holds no
key — the failure is deferred to MissingPrivateKey when a signing
operation first requires the key — while a set but non-base-58-decodable
PRIVATE_KEY makes construction itself fail with the decoding error. -/
theorem provider_init_key_bad_env_propagates (s : String)
    (hbad : b58decode s = none) :
    provider_init_key none (some s) = .error .invalidBase58 ∧
    provider_init_key none none = .ok none ∧
    require_private_key none = .error .missingPrivateKey := by
  refine ⟨?_, rfl, rfl⟩
  simp only [provider_init_key, load_private_key_from_env, load_private_key, hbad]

/-- Witness for C10 at a string outside the base-58 alphabet. -/
theorem provider_init_key_bad_env_propagates_witness :
    provider_init_key none (some "I0O") = .error .invalidBase58 ∧
    provider_init_key none none = .ok none ∧
    require_private_key none = .error .missingPrivateKey :=
  provider_init_key_bad_env_propagates "I0O" (by decide)
